import Mathlib

/-!
Verification of the quiz-generation core of a small FastAPI service
(`app.py`): the response parser `_parse_quiz_response`, the fallback
catalog `_get_fallback_quiz`, and the orchestrator `generate_ai_quiz`.

Python string primitives (`strip`, `startswith`, `replace`, `in`,
`split('\n')`, slicing, `int()`) are embedded as executable functions on
`List Char` / `String`.  Restrictions of the embedding, all irrelevant to
the inputs the program handles: `pyStrip` strips the ASCII whitespace
characters recognised by `Char.isWhitespace` (Python also strips other
Unicode whitespace); `pyInt` models `int()` on an optional ASCII sign
followed by ASCII digits (Python additionally accepts underscore digit
grouping and non-ASCII decimal digits); `pyReplace` is only called with
non-empty patterns, as in the source.
-/

/-- Model of Python `str.split('\n')` on a character list. -/
def splitNL : List Char → List (List Char)
  | [] => [[]]
  | c :: rest =>
    if c = '\n' then [] :: splitNL rest
    else
      match splitNL rest with
      | [] => [[c]]
      | h :: t => (c :: h) :: t

/-- Model of Python `str.split('\n')`. -/
def pySplitLines (s : String) : List String :=
  (splitNL s.data).map String.mk

/-- Model of Python `str.strip()` on a character list (ASCII whitespace). -/
def trimChars (l : List Char) : List Char :=
  ((l.dropWhile Char.isWhitespace).reverse.dropWhile Char.isWhitespace).reverse

/-- Model of Python `str.strip()`. -/
def pyStrip (s : String) : String :=
  ⟨trimChars s.data⟩

/-- Model of Python `str.startswith(pre)`: character-wise prefix test. -/
def pyStartsWith (s pre : String) : Bool :=
  List.isPrefixOf pre.data s.data

/-- Occurrence of `pat` at some position of `l`. -/
def containsSub (pat : List Char) : List Char → Bool
  | [] => List.isPrefixOf pat []
  | c :: rest => List.isPrefixOf pat (c :: rest) || containsSub pat rest

/-- Model of Python `pat in s`: substring containment. -/
def pyContains (s pat : String) : Bool :=
  containsSub pat.data s.data

/-- Worker for `replaceChars`: in state `skip = k + 1` the next `k + 1`
characters belong to an occurrence just replaced and are dropped without
rescanning (occurrences are non-overlapping); in state `skip = 0` the
scan tests for an occurrence of `pat` at the current position. -/
def replaceAux (pat rep : List Char) : Nat → List Char → List Char
  | _, [] => []
  | Nat.succ k, _ :: rest => replaceAux pat rep k rest
  | 0, c :: rest =>
    if pat ≠ [] ∧ List.isPrefixOf pat (c :: rest) = true then
      rep ++ replaceAux pat rep (pat.length - 1) rest
    else
      c :: replaceAux pat rep 0 rest

/-- Replace every non-overlapping occurrence of `pat` (left to right) by
`rep`, as Python `str.replace` does for a non-empty pattern.  For an empty
pattern this returns the input unchanged (the source never passes one). -/
def replaceChars (pat rep : List Char) (s : List Char) : List Char :=
  replaceAux pat rep 0 s

/-- Model of Python `s.replace(pat, rep)`. -/
def pyReplace (s pat rep : String) : String :=
  ⟨replaceChars pat.data rep.data s.data⟩

/-- Model of Python slicing `s[n:]` (character based). -/
def pyDrop (s : String) (n : Nat) : String :=
  ⟨s.data.drop n⟩

/-- Digit run to a number: `some` iff the run is non-empty and all ASCII
digits. -/
def digitsToNat (cs : List Char) : Option Nat :=
  if cs ≠ [] ∧ cs.all Char.isDigit then
    some (cs.foldl (fun n c => n * 10 + (c.toNat - 48)) 0)
  else
    none

/-- Model of Python `int(s)` on an already-stripped string: optional sign
followed by ASCII digits; `none` models `ValueError`. -/
def pyInt (s : String) : Option Int :=
  match s.data with
  | '-' :: rest => (digitsToNat rest).map (fun n => -(n : Int))
  | '+' :: rest => (digitsToNat rest).map (fun n => (n : Int))
  | cs => (digitsToNat cs).map (fun n => (n : Int))

/-! ## Data model (§3 of the source's API: dict payloads and pydantic models) -/

/-- The quiz record built by `_parse_quiz_response` / `_get_fallback_quiz`
(a Python dict with these five keys). -/
structure Quiz where
  question : String
  options : List String
  correct_answer : Int
  explanation : String
  points : Int
deriving DecidableEq

/-- Pydantic request model `QuizRequest`. -/
structure QuizRequest where
  spot_name : String
  spot_description : String
  difficulty : String
deriving DecidableEq

/-- Pydantic response model `QuizResponse`; `quiz` is always populated on
the modelled paths. -/
structure QuizResponse where
  success : Bool
  quiz : Quiz
  generated_by : String
deriving DecidableEq

/-! ## String constants of the source -/

def qMarker : String := "問題:"

def aMarker : String := "正解:"

def eMarker : String := "解説:"

def optMarker1 : String := "1."

def optMarker2 : String := "2."

def optMarker3 : String := "3."

def optMarker4 : String := "4."

def emptyS : String := ""

def defaultQuestion : String := "この場所について正しいものはどれでしょう？"

def defaultExplanation : String := "歴史的に重要な場所として知られています。"

/-- The fixed generic 4-option list substituted by the parser when the
collected option count is not exactly 4. -/
def genericOptions : List String :=
  ["歴史的に重要な場所である",
   "最近建設された建物である",
   "海外にある場所である",
   "架空の場所である"]

/-! ## The parser `_parse_quiz_response` (app.py lines 165-203) -/

/-- Mutable loop state of the parser's `for line in lines` scan. -/
structure ParseState where
  question : String
  options : List String
  correct_answer : Int
  explanation : String
deriving DecidableEq

/-- Initial loop state: `question = ""`, `options = []`,
`correct_answer = 0`, `explanation = ""`. -/
def initState : ParseState :=
  { question := emptyS, options := [], correct_answer := 0, explanation := emptyS }

/-- `line.startswith(('1.', '2.', '3.', '4.'))`. -/
def isOptionLine (line : String) : Bool :=
  pyStartsWith line optMarker1 || pyStartsWith line optMarker2 ||
  pyStartsWith line optMarker3 || pyStartsWith line optMarker4

/-- `line.replace('問題:', '').strip()`. -/
def questionOf (line : String) : String :=
  pyStrip (pyReplace line qMarker emptyS)

/-- `line[2:].strip()`. -/
def optionOf (line : String) : String :=
  pyStrip (pyDrop line 2)

/-- `int(line.replace('正解:', '').strip()) - 1`, with `ValueError`
caught and replaced by `0`. -/
def answerOf (line : String) : Int :=
  match pyInt (pyStrip (pyReplace line aMarker emptyS)) with
  | some n => n - 1
  | none => 0

/-- `line.replace('解説:', '').strip()`. -/
def explanationOf (line : String) : String :=
  pyStrip (pyReplace line eMarker emptyS)

/-- One iteration of the parser's scan loop (the if/elif chain). -/
def processLine (s : ParseState) (line : String) : ParseState :=
  if pyStartsWith line qMarker then
    { s with question := questionOf line }
  else if isOptionLine line then
    { s with options := s.options ++ [optionOf line] }
  else if pyStartsWith line aMarker then
    { s with correct_answer := answerOf line }
  else if pyStartsWith line eMarker then
    { s with explanation := explanationOf line }
  else
    s

/-- `[line.strip() for line in response.split('\n') if line.strip()]`. -/
def prepLines (response : String) : List String :=
  ((pySplitLines response).map pyStrip).filter (fun l => l ≠ emptyS)

/-- The whole scan loop over the prepared lines. -/
def scanLines (lines : List String) : ParseState :=
  lines.foldl processLine initState

/-- The returned dict: `question or default`, wholesale option
substitution unless exactly 4 were collected, `max(0, min(3, ...))`
clamping, `explanation or default`, `points` passed through. -/
def finalizeQuiz (s : ParseState) (points : Int) : Quiz :=
  { question := if s.question = emptyS then defaultQuestion else s.question
    options := if s.options.length = 4 then s.options else genericOptions
    correct_answer := max 0 (min 3 s.correct_answer)
    explanation := if s.explanation = emptyS then defaultExplanation else s.explanation
    points := points }

/-- `_parse_quiz_response(response, points)`.  The source wraps the body
in `try/except`, returning `_get_fallback_quiz("", 15)` on an exception;
every operation of the body is total for a string argument (the only
raising conversion, `int(...)`, is caught by the inner `except
ValueError`), so the outer handler is dead code for string input and the
embedding is the body itself. -/
def _parse_quiz_response (response : String) (points : Int) : Quiz :=
  finalizeQuiz (scanLines (prepLines response)) points

/-! ## The fallback catalog `_get_fallback_quiz` (app.py lines 205-248) -/

/-- `{"小学生": 10, "中学生": 15, "高校生": 20}.get(difficulty, 15)`. -/
def getPoints (difficulty : String) : Int :=
  if difficulty = "小学生" then 10
  else if difficulty = "中学生" then 15
  else if difficulty = "高校生" then 20
  else 15

def daibutsu : String := "大仏"

def hachimangu : String := "八幡宮"

def buddhaOptions : List String :=
  ["13世紀に建立された国宝である",
   "最近作られたレプリカである",
   "海外から輸入された仏像である",
   "実際には存在しない伝説上の仏像である"]

def shrineOptions : List String :=
  ["源頼朝", "織田信長", "豊臣秀吉", "徳川家康"]

def fbGenericOptions : List String :=
  ["歴史的に重要な場所である",
   "最近建設された観光地である",
   "架空の場所である",
   "海外にある場所である"]

def buddhaQSuffix : String := "について正しいものはどれでしょう？"

def buddhaESuffix : String := "は鎌倉時代に建立された、日本を代表する文化財です。"

def shrineQSuffix : String := "と関係が深い人物は誰でしょう？"

def shrineESuffix : String := "は源頼朝によって鎌倉幕府の守護神として崇敬されました。"

def fbGenericQSuffix : String := "について正しいものはどれでしょう？"

def fbGenericESuffix : String := "は長い歴史を持つ重要な文化遺産です。"

/-- `_get_fallback_quiz(spot_name, difficulty)`: substring rules checked
in fixed order, first match wins; f-string interpolation becomes string
append. -/
def _get_fallback_quiz (spot_name difficulty : String) : Quiz :=
  let points := getPoints difficulty
  if pyContains spot_name daibutsu then
    { question := spot_name ++ buddhaQSuffix
      options := buddhaOptions
      correct_answer := 0
      explanation := spot_name ++ buddhaESuffix
      points := points }
  else if pyContains spot_name hachimangu then
    { question := spot_name ++ shrineQSuffix
      options := shrineOptions
      correct_answer := 0
      explanation := spot_name ++ shrineESuffix
      points := points }
  else
    { question := spot_name ++ fbGenericQSuffix
      options := fbGenericOptions
      correct_answer := 0
      explanation := spot_name ++ fbGenericESuffix
      points := points }

/-! ## The orchestrator (app.py lines 91-163)

The configured provider client is modelled together with the outcome of
its single invocation: `none` is an unconfigured client (`openai_client`
is `None`), `some (Except.error ())` a configured client whose call
raises, and `some (Except.ok text)` a configured client whose call
returns `text`.  The source consumes this one outcome exactly once — no
retry exists. -/

/-- `_generate_quiz_with_openai`: compute points from the difficulty,
invoke the provider once, parse its text; a raised exception propagates. -/
def _generate_quiz_with_openai (outcome : Except Unit String)
    (_spot_name _spot_description difficulty : String) : Except Unit Quiz :=
  let points := getPoints difficulty
  match outcome with
  | Except.error e => Except.error e
  | Except.ok text => Except.ok (_parse_quiz_response text points)

/-- `generate_ai_quiz(request)`: unconfigured client → fallback; any
exception from generation → fallback; otherwise the parsed quiz.  All
three paths answer `success = True`. -/
def generate_ai_quiz (openai_client : Option (Except Unit String))
    (request : QuizRequest) : QuizResponse :=
  match openai_client with
  | none =>
    { success := true
      quiz := _get_fallback_quiz request.spot_name request.difficulty
      generated_by := "fallback" }
  | some outcome =>
    match _generate_quiz_with_openai outcome request.spot_name
        request.spot_description request.difficulty with
    | Except.ok quiz_data =>
      { success := true, quiz := quiz_data, generated_by := "openai" }
    | Except.error _ =>
      { success := true
        quiz := _get_fallback_quiz request.spot_name request.difficulty
        generated_by := "fallback" }

/-! ## Helper lemmas: marker disambiguation and branch reduction -/

lemma qMarker_data : qMarker.data = '問' :: ['題', ':'] := rfl

lemma aMarker_data : aMarker.data = '正' :: ['解', ':'] := rfl

lemma eMarker_data : eMarker.data = '解' :: ['説', ':'] := rfl

lemma optMarker1_data : optMarker1.data = '1' :: ['.'] := rfl

lemma optMarker2_data : optMarker2.data = '2' :: ['.'] := rfl

lemma optMarker3_data : optMarker3.data = '3' :: ['.'] := rfl

lemma optMarker4_data : optMarker4.data = '4' :: ['.'] := rfl

/-- A positive `startswith` for a marker with head `a` pins down the head
character of the line. -/
lemma pyStartsWith_head {l pre : String} {a : Char} {p : List Char}
    (hpre : pre.data = a :: p) (h : pyStartsWith l pre = true) :
    l.data.head? = some a := by
  unfold pyStartsWith at h
  rw [hpre] at h
  cases hd : l.data with
  | nil => rw [hd] at h; simp [List.isPrefixOf] at h
  | cons b bs =>
    rw [hd] at h
    simp only [List.isPrefixOf, Bool.and_eq_true, beq_iff_eq] at h
    rw [h.1]
    rfl

/-- `startswith` fails for a marker whose head character differs from the
line's head character. -/
lemma pyStartsWith_false_of_head {l pre : String} {a b : Char} {p : List Char}
    (hpre : pre.data = a :: p) (hl : l.data.head? = some b) (hne : a ≠ b) :
    pyStartsWith l pre = false := by
  unfold pyStartsWith
  rw [hpre]
  cases hd : l.data with
  | nil => rw [hd] at hl; simp at hl
  | cons c cs =>
    rw [hd] at hl
    simp only [List.head?, Option.some.injEq] at hl
    subst hl
    simp only [List.isPrefixOf, Bool.and_eq_true, beq_iff_eq]
    simp [hne]

/-- An option line starts with one of the four digits. -/
lemma head_of_optionLine {l : String} (h : isOptionLine l = true) :
    l.data.head? = some '1' ∨ l.data.head? = some '2' ∨
    l.data.head? = some '3' ∨ l.data.head? = some '4' := by
  unfold isOptionLine at h
  simp only [Bool.or_eq_true] at h
  rcases h with ((h | h) | h) | h
  · exact Or.inl (pyStartsWith_head optMarker1_data h)
  · exact Or.inr (Or.inl (pyStartsWith_head optMarker2_data h))
  · exact Or.inr (Or.inr (Or.inl (pyStartsWith_head optMarker3_data h)))
  · exact Or.inr (Or.inr (Or.inr (pyStartsWith_head optMarker4_data h)))

/-- Question branch of the scan loop. -/
lemma processLine_q (s : ParseState) (l : String)
    (h : pyStartsWith l qMarker = true) :
    processLine s l = { s with question := questionOf l } := by
  unfold processLine
  rw [h]
  simp

/-- Option branch of the scan loop. -/
lemma processLine_opt (s : ParseState) (l : String)
    (h : isOptionLine l = true) :
    processLine s l = { s with options := s.options ++ [optionOf l] } := by
  have hq : pyStartsWith l qMarker = false := by
    rcases head_of_optionLine h with h1 | h1 | h1 | h1 <;>
      exact pyStartsWith_false_of_head qMarker_data h1 (by decide)
  unfold processLine
  rw [hq, h]
  simp

/-- Answer branch of the scan loop. -/
lemma processLine_ans (s : ParseState) (l : String)
    (h : pyStartsWith l aMarker = true) :
    processLine s l = { s with correct_answer := answerOf l } := by
  have hhd := pyStartsWith_head aMarker_data h
  have hq : pyStartsWith l qMarker = false :=
    pyStartsWith_false_of_head qMarker_data hhd (by decide)
  have ho : isOptionLine l = false := by
    unfold isOptionLine
    rw [pyStartsWith_false_of_head optMarker1_data hhd (by decide),
      pyStartsWith_false_of_head optMarker2_data hhd (by decide),
      pyStartsWith_false_of_head optMarker3_data hhd (by decide),
      pyStartsWith_false_of_head optMarker4_data hhd (by decide)]
    rfl
  unfold processLine
  rw [hq, ho, h]
  simp

/-- Explanation branch of the scan loop. -/
lemma processLine_exp (s : ParseState) (l : String)
    (h : pyStartsWith l eMarker = true) :
    processLine s l = { s with explanation := explanationOf l } := by
  have hhd := pyStartsWith_head eMarker_data h
  have hq : pyStartsWith l qMarker = false :=
    pyStartsWith_false_of_head qMarker_data hhd (by decide)
  have ha : pyStartsWith l aMarker = false :=
    pyStartsWith_false_of_head aMarker_data hhd (by decide)
  have ho : isOptionLine l = false := by
    unfold isOptionLine
    rw [pyStartsWith_false_of_head optMarker1_data hhd (by decide),
      pyStartsWith_false_of_head optMarker2_data hhd (by decide),
      pyStartsWith_false_of_head optMarker3_data hhd (by decide),
      pyStartsWith_false_of_head optMarker4_data hhd (by decide)]
    rfl
  unfold processLine
  rw [hq, ho, ha, h]
  simp

/-- The scan of `ls ++ [l]` is the scan of `ls` followed by one loop
iteration on `l`. -/
lemma scanLines_append (ls : List String) (l : String) :
    scanLines (ls ++ [l]) = processLine (scanLines ls) l := by
  simp [scanLines, List.foldl_append]

/-- Structural guarantees of the parser's final defaulting/clamping pass,
for an arbitrary scan state. -/
lemma finalize_wellformed (st : ParseState) (pts : Int) :
    (finalizeQuiz st pts).options.length = 4 ∧
    0 ≤ (finalizeQuiz st pts).correct_answer ∧
    (finalizeQuiz st pts).correct_answer ≤ 3 ∧
    (finalizeQuiz st pts).question ≠ emptyS ∧
    (finalizeQuiz st pts).explanation ≠ emptyS := by
  refine ⟨?_, ?_, ?_, ?_, ?_⟩
  · show (if st.options.length = 4 then st.options else genericOptions).length = 4
    split_ifs with h
    · exact h
    · decide
  · show 0 ≤ max 0 (min 3 st.correct_answer)
    exact le_max_left 0 _
  · show max 0 (min 3 st.correct_answer) ≤ 3
    exact max_le (by decide) (min_le_left 3 _)
  · show (if st.question = emptyS then defaultQuestion else st.question) ≠ emptyS
    split_ifs with h
    · decide
    · exact h
  · show (if st.explanation = emptyS then defaultExplanation else st.explanation) ≠ emptyS
    split_ifs with h
    · decide
    · exact h

/-! ## Concrete inputs used by closed conjuncts, witnesses and the
counterexample -/

def rawScenario3 : String := "問題: Q\n1. A\n2. B\n3. C\n4. D\n正解: 2\n解説: E"

def rawAnswer9 : String := "正解: 9"

def rawBadAnswer : String := "正解: abc"

def rawTwoOptions : String := "問題: Q\n1. A\n2. B"

def rawFiveOptions : String := "1. A\n2. B\n3. C\n4. D\n1. E"

def rawDupOptions : String := "1. A\n2. A\n3. A\n4. A"

def rawEmptyOptions : String := "1.\n2.\n3.\n4."

def dupOption : String := "A"

def yoritomo : String := "源頼朝"

def midDifficulty : String := "中学生"

def otherDifficulty : String := "大学生"

def mixedSpot : String := "鎌倉大仏八幡宮"

def lineQ1 : String := "問題: 古い問題"

def lineQ2 : String := "問題: 新しい問題"

def lineA1 : String := "正解: 1"

def lineA2 : String := "正解: 3"

def lineE1 : String := "解説: 古い解説"

def lineE2 : String := "解説: 新しい解説"

def lineO1 : String := "1. 選択肢A"

def lineO2 : String := "2. 選択肢B"

/-! ## Claim theorems -/

/-- C1: for every string `raw` and every integer `pts`,
`_parse_quiz_response raw pts` returns a quiz with exactly 4 options, a
`correct_answer` index in `[0, 3]`, and non-empty `question` and
`explanation` strings, no matter how malformed or empty `raw` is. -/
theorem parse_output_wellformed (raw : String) (pts : Int) :
    (_parse_quiz_response raw pts).options.length = 4 ∧
    0 ≤ (_parse_quiz_response raw pts).correct_answer ∧
    (_parse_quiz_response raw pts).correct_answer ≤ 3 ∧
    (_parse_quiz_response raw pts).question ≠ emptyS ∧
    (_parse_quiz_response raw pts).explanation ≠ emptyS :=
  finalize_wellformed (scanLines (prepLines raw)) pts

/-- C1 witness: the guarantees instantiated at the empty raw text. -/
theorem parse_output_wellformed_witness :
    (_parse_quiz_response emptyS 15).options.length = 4 ∧
    0 ≤ (_parse_quiz_response emptyS 15).correct_answer ∧
    (_parse_quiz_response emptyS 15).correct_answer ≤ 3 ∧
    (_parse_quiz_response emptyS 15).question ≠ emptyS ∧
    (_parse_quiz_response emptyS 15).explanation ≠ emptyS :=
  parse_output_wellformed emptyS 15

/-- C2 counterexample: the claim "for every raw_text input, the 4 options
returned by the parser are distinct and non-empty" is false.  On the raw
text `"1. A\n2. A\n3. A\n4. A"` the parser returns four identical
options, and on `"1.\n2.\n3.\n4."` it returns the empty string as an
option. -/
theorem parse_options_distinct_counterexample :
    (_parse_quiz_response rawDupOptions 15).options =
      [dupOption, dupOption, dupOption, dupOption] ∧
    ¬ (_parse_quiz_response rawDupOptions 15).options.Nodup ∧
    emptyS ∈ (_parse_quiz_response rawEmptyOptions 15).options := by
  refine ⟨by decide, by decide, by decide⟩

/-- C2 amended: every fallback-catalog quiz has exactly 4 pairwise
distinct, non-empty options, and so does the parser's generic substitute
list; the parser always returns exactly 4 options, but when it collects
exactly 4 option lines from the raw text it uses them verbatim, so they
may contain duplicates or empty strings (see the counterexample). -/
theorem options_wellformed_amended (s d raw : String) (pts : Int) :
    (_get_fallback_quiz s d).options.length = 4 ∧
    (_get_fallback_quiz s d).options.Nodup ∧
    (∀ o ∈ (_get_fallback_quiz s d).options, o ≠ emptyS) ∧
    genericOptions.length = 4 ∧
    genericOptions.Nodup ∧
    (∀ o ∈ genericOptions, o ≠ emptyS) ∧
    (_parse_quiz_response raw pts).options.length = 4 := by
  refine ⟨?_, ?_, ?_, by decide, by decide, by decide,
    (finalize_wellformed (scanLines (prepLines raw)) pts).1⟩
  · unfold _get_fallback_quiz
    split_ifs
    · show buddhaOptions.length = 4
      decide
    · show shrineOptions.length = 4
      decide
    · show fbGenericOptions.length = 4
      decide
  · unfold _get_fallback_quiz
    split_ifs
    · show buddhaOptions.Nodup
      decide
    · show shrineOptions.Nodup
      decide
    · show fbGenericOptions.Nodup
      decide
  · unfold _get_fallback_quiz
    split_ifs
    · show ∀ o ∈ buddhaOptions, o ≠ emptyS
      decide
    · show ∀ o ∈ shrineOptions, o ≠ emptyS
      decide
    · show ∀ o ∈ fbGenericOptions, o ≠ emptyS
      decide

/-- C2 amended witness: instantiated at a shrine spot name and at the
empty raw text. -/
theorem options_wellformed_amended_witness :
    (_get_fallback_quiz hachimangu midDifficulty).options.Nodup ∧
    (_parse_quiz_response emptyS 15).options.length = 4 :=
  ⟨(options_wellformed_amended hachimangu midDifficulty emptyS 15).2.1,
   (options_wellformed_amended hachimangu midDifficulty emptyS 15).2.2.2.2.2.2⟩

/-- C3: the generation endpoint never surfaces failure.  With no client
configured it returns the fallback quiz tagged "fallback" with no
provider call consumed; when the single provider invocation raises it
returns the same fallback result; on the provider-backed path it returns
the parsed quiz tagged "openai"; in every case `success = true`, and the
single provider outcome is consumed exactly once (no retry). -/
theorem orchestrator_fallback_behavior (req : QuizRequest) (t : String) (e : Unit) :
    generate_ai_quiz none req =
      { success := true
        quiz := _get_fallback_quiz req.spot_name req.difficulty
        generated_by := "fallback" } ∧
    generate_ai_quiz (some (Except.error e)) req =
      { success := true
        quiz := _get_fallback_quiz req.spot_name req.difficulty
        generated_by := "fallback" } ∧
    generate_ai_quiz (some (Except.ok t)) req =
      { success := true
        quiz := _parse_quiz_response t (getPoints req.difficulty)
        generated_by := "openai" } ∧
    ∀ c, (generate_ai_quiz c req).success = true := by
  refine ⟨rfl, rfl, rfl, ?_⟩
  intro c
  match c with
  | none => rfl
  | some (Except.error _) => rfl
  | some (Except.ok _) => rfl

/-- C4: `points` is determined solely by the difficulty label via the
fixed lookup 小学生 ↦ 10, 中学生 ↦ 15, 高校生 ↦ 20, anything else ↦ 15,
identically in the generation path and in the fallback catalog. -/
theorem points_difficulty_lookup (d : String)
    (h1 : d ≠ "小学生") (h2 : d ≠ "中学生") (h3 : d ≠ "高校生") :
    getPoints "小学生" = 10 ∧
    getPoints "中学生" = 15 ∧
    getPoints "高校生" = 20 ∧
    getPoints d = 15 ∧
    (∀ s dd, (_get_fallback_quiz s dd).points = getPoints dd) ∧
    (∀ t sn sd dd, _generate_quiz_with_openai (Except.ok t) sn sd dd =
      Except.ok (_parse_quiz_response t (getPoints dd))) := by
  refine ⟨by decide, by decide, by decide, ?_, ?_, ?_⟩
  · unfold getPoints
    rw [if_neg h1, if_neg h2, if_neg h3]
  · intro s dd
    unfold _get_fallback_quiz
    split_ifs <;> rfl
  · intro t sn sd dd
    rfl

/-- C4 witness: an unrecognised difficulty resolves to 15 points in both
paths. -/
theorem points_difficulty_lookup_witness :
    getPoints otherDifficulty = 15 ∧
    (_get_fallback_quiz mixedSpot otherDifficulty).points = 15 := by
  have h := points_difficulty_lookup otherDifficulty (by decide) (by decide) (by decide)
  refine ⟨h.2.2.2.1, ?_⟩
  rw [h.2.2.2.2.1 mixedSpot otherDifficulty]
  exact h.2.2.2.1

/-- C5: the fallback catalog selects among its hardcoded quizzes by
substring rules in fixed priority order with first match winning — a
spot name containing 大仏 gets the Great-Buddha quiz even when it also
contains 八幡宮, else one containing 八幡宮 gets the shrine quiz whose
first option is 源頼朝, else the generic quiz — and in all cases
`correct_answer = 0`, 4 options, and the spot name interpolated into
question and explanation. -/
theorem fallback_selection_rules (s d : String) :
    _get_fallback_quiz s d =
      (if pyContains s daibutsu then
        { question := s ++ buddhaQSuffix
          options := buddhaOptions
          correct_answer := 0
          explanation := s ++ buddhaESuffix
          points := getPoints d }
      else if pyContains s hachimangu then
        { question := s ++ shrineQSuffix
          options := shrineOptions
          correct_answer := 0
          explanation := s ++ shrineESuffix
          points := getPoints d }
      else
        { question := s ++ fbGenericQSuffix
          options := fbGenericOptions
          correct_answer := 0
          explanation := s ++ fbGenericESuffix
          points := getPoints d }) ∧
    shrineOptions.head? = some yoritomo ∧
    (_get_fallback_quiz s d).correct_answer = 0 ∧
    (_get_fallback_quiz s d).options.length = 4 ∧
    (pyContains s daibutsu = true → pyContains s hachimangu = true →
      _get_fallback_quiz s d =
        { question := s ++ buddhaQSuffix
          options := buddhaOptions
          correct_answer := 0
          explanation := s ++ buddhaESuffix
          points := getPoints d }) := by
  refine ⟨rfl, rfl, ?_, ?_, ?_⟩
  · unfold _get_fallback_quiz
    split_ifs <;> rfl
  · unfold _get_fallback_quiz
    split_ifs
    · show buddhaOptions.length = 4
      decide
    · show shrineOptions.length = 4
      decide
    · show fbGenericOptions.length = 4
      decide
  · intro h1 _
    unfold _get_fallback_quiz
    rw [h1]
    rfl

/-- C5 witness: a spot name containing both 大仏 and 八幡宮 gets the
Great-Buddha quiz. -/
theorem fallback_selection_rules_witness :
    _get_fallback_quiz mixedSpot midDifficulty =
      { question := mixedSpot ++ buddhaQSuffix
        options := buddhaOptions
        correct_answer := 0
        explanation := mixedSpot ++ buddhaESuffix
        points := getPoints midDifficulty } :=
  (fallback_selection_rules mixedSpot midDifficulty).2.2.2.2 (by decide) (by decide)

/-- C6: a line beginning with 正解: has its remainder (after removing the
marker and stripping) parsed as an integer minus 1, defaulting to 0 when
unparseable, and the final `correct_answer` is the clamp of that value
into `[0, 3]`; in particular a last answer line 正解: 9 yields 3 and an
unparseable one yields 0. -/
theorem answer_line_parsing (ls : List String) (la : String) (pts : Int)
    (h : pyStartsWith la aMarker = true) :
    (finalizeQuiz (scanLines (ls ++ [la])) pts).correct_answer =
      max 0 (min 3 (answerOf la)) ∧
    answerOf la =
      (match pyInt (pyStrip (pyReplace la aMarker emptyS)) with
       | some n => n - 1
       | none => 0) ∧
    (_parse_quiz_response rawAnswer9 15).correct_answer = 3 ∧
    (_parse_quiz_response rawBadAnswer 15).correct_answer = 0 := by
  refine ⟨?_, rfl, by decide, by decide⟩
  rw [scanLines_append, processLine_ans _ _ h]
  rfl

/-- C6 witness: instantiated at the single line 正解: 9, whose parsed
value 8 is clamped to 3. -/
theorem answer_line_parsing_witness :
    (finalizeQuiz (scanLines ([] ++ [rawAnswer9])) 15).correct_answer =
      max 0 (min 3 (answerOf rawAnswer9)) ∧
    (_parse_quiz_response rawAnswer9 15).correct_answer = 3 := by
  have h := answer_line_parsing [] rawAnswer9 15 (by decide)
  exact ⟨h.1, h.2.2.1⟩

/-- C7: the collected option lines are used only when exactly 4 were
found; otherwise (fewer, e.g. only 2, or more than 4 via repeated
markers) they are discarded wholesale for the fixed generic 4-option
list. -/
theorem option_count_substitution (raw : String) (pts : Int) :
    (_parse_quiz_response raw pts).options =
      (if (scanLines (prepLines raw)).options.length = 4
       then (scanLines (prepLines raw)).options
       else genericOptions) ∧
    (scanLines (prepLines rawTwoOptions)).options.length = 2 ∧
    (_parse_quiz_response rawTwoOptions 15).options = genericOptions ∧
    (scanLines (prepLines rawFiveOptions)).options.length = 5 ∧
    (_parse_quiz_response rawFiveOptions 15).options = genericOptions := by
  exact ⟨rfl, by decide, by decide, by decide, by decide⟩

/-- C8: the fallback path is deterministic — the fallback quiz is a pure
function of `(spot_name, difficulty)`, and two calls to the generation
endpoint with identical spot name and difficulty and no configured
provider yield identical responses (even across differing descriptions,
which the fallback ignores), both equal to the fallback quiz. -/
theorem fallback_deterministic (s d desc1 desc2 : String) :
    _get_fallback_quiz s d = _get_fallback_quiz s d ∧
    generate_ai_quiz none ⟨s, desc1, d⟩ = generate_ai_quiz none ⟨s, desc2, d⟩ ∧
    (generate_ai_quiz none ⟨s, desc1, d⟩).quiz = _get_fallback_quiz s d :=
  ⟨rfl, rfl, rfl⟩

/-- C9: for every string raw text, the `points` field of the parsed quiz
equals the `points` argument passed by the caller.  The source's
catch-all handler (which would return a fallback quiz with points 15) is
unreachable for string input — every operation in the parse body is
total on strings and the only raising conversion, `int(...)`, is caught
by the inner handler — so the embedding is the total body and the
pass-through holds unconditionally. -/
theorem parse_points_passthrough (raw : String) (pts : Int) :
    (_parse_quiz_response raw pts).points = pts :=
  rfl

/-- C10: when several lines carry the same field marker, the later
occurrence overwrites the earlier for question, answer and explanation —
the appended line alone determines the field, whatever `ls` already
set — whereas option lines accumulate by appending in encounter
order. -/
theorem marker_overwrite_vs_append (ls : List String) (lq la le lo : String)
    (hq : pyStartsWith lq qMarker = true)
    (ha : pyStartsWith la aMarker = true)
    (he : pyStartsWith le eMarker = true)
    (ho : isOptionLine lo = true) :
    (scanLines (ls ++ [lq])).question = questionOf lq ∧
    (scanLines (ls ++ [la])).correct_answer = answerOf la ∧
    (scanLines (ls ++ [le])).explanation = explanationOf le ∧
    (scanLines (ls ++ [lo])).options = (scanLines ls).options ++ [optionOf lo] := by
  refine ⟨?_, ?_, ?_, ?_⟩ <;> rw [scanLines_append]
  · rw [processLine_q _ _ hq]
  · rw [processLine_ans _ _ ha]
  · rw [processLine_exp _ _ he]
  · rw [processLine_opt _ _ ho]

/-- C10 witness: a scan over earlier question/answer/explanation/option
lines followed by one more marked line of each kind. -/
theorem marker_overwrite_vs_append_witness :
    (scanLines ([lineQ1, lineA1, lineE1, lineO1] ++ [lineQ2])).question =
      questionOf lineQ2 ∧
    (scanLines ([lineQ1, lineA1, lineE1, lineO1] ++ [lineA2])).correct_answer =
      answerOf lineA2 ∧
    (scanLines ([lineQ1, lineA1, lineE1, lineO1] ++ [lineE2])).explanation =
      explanationOf lineE2 ∧
    (scanLines ([lineQ1, lineA1, lineE1, lineO1] ++ [lineO2])).options =
      (scanLines [lineQ1, lineA1, lineE1, lineO1]).options ++ [optionOf lineO2] :=
  marker_overwrite_vs_append [lineQ1, lineA1, lineE1, lineO1]
    lineQ2 lineA2 lineE2 lineO2 (by decide) (by decide) (by decide) (by decide)
